import Mathlib

/-!
Verification of the TMDB query cache (`src/torcp/tmdbcache.py`) of torcp.

Shallow embedding conventions:

* Time is modelled as `Int`, measured in days. `datetime.now()` becomes an
  explicit `now : Int` argument; `TTL_DAYS = 30` and the expiry bound
  `timestamp + timedelta(days=30)` becomes `t + 30`.
* A cache entry is a JSON object; the only field the cache itself inspects
  is `timestamp`. We model it as `TsField`: the field can be missing
  (`'timestamp' not in entry`), present but failing
  `datetime.fromisoformat` (a `ValueError`/`TypeError`), or present and
  parsing to a time `t`. `set` writes `datetime.now().isoformat()`, which
  parses back to the same instant, so the model stamps `.parsed now`
  directly. All other fields of the entry are kept abstract in `payload`.
* The in-memory dict `self.cache` is an association list `List (String × Entry)`
  with first-match lookup, in-place replacement on insert and removal on
  `del`, matching Python `dict` semantics for the operations used.
* The filesystem is the state visible to the cache: whether the cache
  directory exists, the content of the single cache file, and a counter of
  completed file writes (used to state "at most one disk write"). The
  content of the cache file is classified exactly as the load path
  distinguishes it: unreadable (`open`/read raises `IOError`), invalid JSON
  (`json.JSONDecodeError`), valid JSON that is not an object (then
  `data.get` raises `AttributeError`), a JSON object without an `entries`
  key, or a well-formed store carrying an entries mapping. The `version`
  and `updated` header fields written by `_save` are not inspected by any
  code path and are not modelled.
* Exceptional filesystem conditions are injected through an `IOEnv` oracle
  saying whether `os.makedirs`, the write (`open`/`json.dump`) and
  `os.remove` fail. Python exceptions that can escape a method are made
  explicit: a method that can raise returns its normal result together with
  an `Option PyError` (the state fields also appear, since a Python object
  keeps its mutations when an exception propagates).
-/

/-- Result of reading the `timestamp` field of a cache entry, as
`_is_expired` classifies it: absent, present but unparsable by
`datetime.fromisoformat`, or parsed to an instant. -/
inductive TsField where
  | missing : TsField
  | unparsable : TsField
  | parsed : Int → TsField
deriving DecidableEq, Repr

/-- A cache entry: the `timestamp` field, and all remaining caller-owned
fields kept abstract as `payload`. -/
structure Entry where
  ts : TsField
  payload : List (String × String)
deriving DecidableEq, Repr

/-- Exceptions that can escape a method of the cache. -/
inductive PyError where
  | attributeError : PyError
  | osError : PyError
deriving DecidableEq, Repr

/-- Content of the on-disk cache file, classified as `_load` distinguishes
it. -/
inductive FileContent where
  | unreadable : FileContent
  | invalidJson : FileContent
  | nonObject : FileContent
  | objNoEntries : FileContent
  | objEntries : List (String × Entry) → FileContent
deriving DecidableEq, Repr

/-- The filesystem state the cache can observe and mutate: the cache
directory, the cache file, and a count of completed file writes. -/
structure FS where
  dirExists : Bool
  file : Option FileContent
  writes : Nat
deriving DecidableEq, Repr

/-- Failure oracle for the filesystem calls the cache makes. -/
structure IOEnv where
  mkdirFails : Bool
  writeFails : Bool
  removeFails : Bool
deriving DecidableEq, Repr

/-- `str.lower` on one character (ASCII range, which covers every input the
claims mention). -/
def pyCharLower (c : Char) : Char :=
  if 65 ≤ c.toNat ∧ c.toNat ≤ 90 then Char.ofNat (c.toNat + 32) else c

/-- Python `str.lower`. -/
def pyLower (s : String) : String := ⟨s.data.map pyCharLower⟩

/-- The characters Python `str.strip` removes by default. -/
def pyIsSpace (c : Char) : Bool :=
  c = ' ' || c = '\t' || c = '\n' || c = '\r' ||
    c = (Char.ofNat 11) || c = (Char.ofNat 12)

/-- Python `str.strip`: drop leading and trailing whitespace. -/
def pyStrip (s : String) : String :=
  ⟨((s.data.dropWhile pyIsSpace).reverse.dropWhile pyIsSpace).reverse⟩

/-- First-match lookup in an association list (`key in dict` /
`dict[key]`). -/
def dictLookup (m : List (String × Entry)) (k : String) : Option Entry :=
  match m with
  | [] => none
  | (k', v) :: rest => if k' = k then some v else dictLookup rest k

/-- `dict[key] = value`: replace in place if present, else append. -/
def dictInsert (m : List (String × Entry)) (k : String) (v : Entry) :
    List (String × Entry) :=
  match m with
  | [] => [(k, v)]
  | (k', v') :: rest =>
    if k' = k then (k, v) :: rest else (k', v') :: dictInsert rest k v

/-- `del dict[key]`. -/
def dictErase (m : List (String × Entry)) (k : String) :
    List (String × Entry) :=
  m.filter (fun p => p.1 ≠ k)

/-- The in-memory state of a `TMDbCache` object: `self.disabled`,
`self.cache`, `self._dirty`. -/
structure TMDbCache where
  disabled : Bool
  cache : List (String × Entry)
  dirty : Bool
deriving DecidableEq, Repr

namespace TMDbCache

/-- `TTL_DAYS = 30`. -/
def TTL_DAYS : Int := 30

/-- `_load`: read the cache file. A missing file leaves the mapping empty;
`IOError` and `json.JSONDecodeError` are caught (mapping empty); valid JSON
that is not an object makes `data.get('entries', {})` raise
`AttributeError`, which nothing catches. -/
def load (fs : FS) : Except PyError (List (String × Entry)) :=
  match fs.file with
  | none => .ok []
  | some .unreadable => .ok []
  | some .invalidJson => .ok []
  | some .nonObject => .error .attributeError
  | some .objNoEntries => .ok []
  | some (.objEntries es) => .ok es

/-- `__init__(self, disabled=False)`: set the fields, and `_load` unless
disabled. -/
def construct (disabled : Bool) (fs : FS) : Except PyError TMDbCache :=
  if disabled then .ok ⟨true, [], false⟩
  else
    match load fs with
    | .error e => .error e
    | .ok es => .ok ⟨false, es, false⟩

/-- `_is_expired(self, entry)`. -/
def is_expired (now : Int) (e : Entry) : Bool :=
  match e.ts with
  | .missing => true
  | .unparsable => true
  | .parsed t => now > t + TTL_DAYS

/-- `_make_key(self, media_type, title, year)`. `None` and the falsy
values `''` / `0` follow Python truthiness. -/
def make_key (media_type title : Option String) (year : Option Int) :
    String :=
  let normalized_title :=
    match title with
    | some s => if s ≠ "" then pyStrip (pyLower s) else ""
    | none => ""
  let year_str :=
    match year with
    | some y => if y ≠ 0 then toString y else "0"
    | none => "0"
  let media_type_str :=
    match media_type with
    | some s => if s ≠ "" then pyLower s else "unknown"
    | none => "unknown"
  media_type_str ++ "|" ++ normalized_title ++ "|" ++ year_str

/-- `get(self, key)`: returns the (possibly evicting) updated object and
the result. Never raises and never touches the disk. -/
def get (c : TMDbCache) (now : Int) (key : String) :
    TMDbCache × Option Entry :=
  if c.disabled then (c, none)
  else
    match dictLookup c.cache key with
    | none => (c, none)
    | some entry =>
      if is_expired now entry then
        ({ c with cache := dictErase c.cache key, dirty := true }, none)
      else (c, some entry)

/-- `get_by_search(self, media_type, title, year)`. -/
def get_by_search (c : TMDbCache) (now : Int)
    (media_type title : Option String) (year : Option Int) :
    TMDbCache × Option Entry :=
  c.get now (make_key media_type title year)

/-- `set(self, key, entry)`: stamps `entry['timestamp'] = now()` then
stores. -/
def set (c : TMDbCache) (now : Int) (key : String) (entry : Entry) :
    TMDbCache :=
  if c.disabled then c
  else
    { c with
      cache := dictInsert c.cache key { entry with ts := .parsed now },
      dirty := true }

/-- `set_by_search(self, media_type, title, year, entry)`. -/
def set_by_search (c : TMDbCache) (now : Int)
    (media_type title : Option String) (year : Option Int) (entry : Entry) :
    TMDbCache :=
  c.set now (make_key media_type title year) entry

/-- `_save`: no-op when disabled; otherwise `os.makedirs` (outside the
`try`, so its failure propagates), then the JSON dump with `IOError`
caught and logged. A failed dump leaves the modelled file unchanged. -/
def save (c : TMDbCache) (env : IOEnv) (fs : FS) : FS × Option PyError :=
  if c.disabled then (fs, none)
  else if !fs.dirExists && env.mkdirFails then (fs, some .osError)
  else
    let fs' := { fs with dirExists := true }
    if env.writeFails then (fs', none)
    else
      ({ fs' with file := some (.objEntries c.cache),
                  writes := fs'.writes + 1 }, none)

/-- `close(self)`: `_save` then clear the dirty flag — but only when
`_save` returns normally, since an exception skips `self._dirty = False`. -/
def close (c : TMDbCache) (env : IOEnv) (fs : FS) :
    TMDbCache × FS × Option PyError :=
  if c.dirty then
    match save c env fs with
    | (fs', none) => ({ c with dirty := false }, fs', none)
    | (fs', some e) => (c, fs', some e)
  else (c, fs, none)

/-- `clear(self)`: empty the mapping, mark dirty, and delete the file if it
exists, catching `IOError`. Note: `clear` never consults `self.disabled`. -/
def clear (c : TMDbCache) (env : IOEnv) (fs : FS) : TMDbCache × FS :=
  let c' := { c with cache := [], dirty := true }
  match fs.file with
  | none => (c', fs)
  | some _ =>
    if env.removeFails then (c', fs) else (c', { fs with file := none })

end TMDbCache

/-- One call a client can make on a cache instance (the operations named by
the spec's public contract, with their implicit clock argument). -/
inductive Op where
  | opGet : Int → String → Op
  | opGetBySearch : Int → Option String → Option String → Option Int → Op
  | opSet : Int → String → Entry → Op
  | opSetBySearch : Int → Option String → Option String → Option Int →
      Entry → Op
  | opClear : Op
  | opClose : Op
deriving DecidableEq, Repr

/-- Effect of one call on the cache object and the filesystem. A raised
exception leaves both in their mutated state, as in Python. -/
def step (env : IOEnv) (s : TMDbCache × FS) (op : Op) : TMDbCache × FS :=
  match op with
  | .opGet now key => ((s.1.get now key).1, s.2)
  | .opGetBySearch now mt t y => ((s.1.get_by_search now mt t y).1, s.2)
  | .opSet now key e => (s.1.set now key e, s.2)
  | .opSetBySearch now mt t y e => (s.1.set_by_search now mt t y e, s.2)
  | .opClear => s.1.clear env s.2
  | .opClose => ((s.1.close env s.2).1, (s.1.close env s.2).2.1)

/-- Run a sequence of calls. -/
def run (env : IOEnv) (s : TMDbCache × FS) (ops : List Op) :
    TMDbCache × FS :=
  ops.foldl (step env) s

/-! Concrete states used by witness and counterexample theorems. -/

/-- An environment where every filesystem call succeeds. -/
def envOk : IOEnv := ⟨false, false, false⟩

/-- An environment where `os.makedirs` raises. -/
def envMkdirFail : IOEnv := ⟨true, false, false⟩

/-- A fresh-looking entry. -/
def eSample : Entry := ⟨.parsed 70, [("id", "603")]⟩

/-- An entry with no `timestamp` field. -/
def eStale : Entry := ⟨.missing, [("id", "604")]⟩

/-- A sample normalized key. -/
def kSample : String := "movie|the matrix|1999"

/-- A live cache holding one expired entry. -/
def cStale : TMDbCache := ⟨false, [(kSample, eStale)], false⟩

/-- A live cache with nothing stored. -/
def cEmpty : TMDbCache := ⟨false, [], false⟩

/-- A disabled cache as `__init__(disabled=True)` builds it. -/
def cDisabled : TMDbCache := ⟨true, [], false⟩

/-- A live cache with one entry and unsaved changes. -/
def cDirty : TMDbCache := ⟨false, [(kSample, eSample)], true⟩

/-- Cache directory present, no cache file. -/
def fsEmpty : FS := ⟨true, none, 0⟩

/-- Cache directory absent. -/
def fsNoDir : FS := ⟨false, none, 0⟩

/-- A well-formed cache file holding one entry. -/
def fsWithFile : FS := ⟨true, some (.objEntries [(kSample, eSample)]), 0⟩

/-- A cache file whose JSON document is not an object. -/
def fsNonObject : FS := ⟨true, some .nonObject, 0⟩

section HelperLemmas

theorem dictLookup_dictInsert_self (m : List (String × Entry)) (k : String)
    (v : Entry) : dictLookup (dictInsert m k v) k = some v := by
  induction m with
  | nil => simp [dictInsert, dictLookup]
  | cons p rest ih =>
    by_cases h : p.1 = k
    · simp [dictInsert, dictLookup, h]
    · simp [dictInsert, dictLookup, h, ih]

theorem dictLookup_dictErase_self (m : List (String × Entry)) (k : String) :
    dictLookup (dictErase m k) k = none := by
  induction m with
  | nil => simp [dictErase, dictLookup]
  | cons p rest ih =>
    by_cases h : p.1 = k
    · simpa [dictErase, dictLookup, h] using ih
    · simpa [dictErase, dictLookup, h] using ih

end HelperLemmas

/-- C1: `get` never returns an entry whose timestamp is missing, unparsable
or more than `TTL_DAYS` old; an expired entry is evicted with the dirty
flag set and the call returns absent; the expiry test on a parsed
timestamp is the strict comparison `now > timestamp + TTL`. -/
theorem C1_get_never_returns_expired (c : TMDbCache) (now : Int)
    (key : String) :
    (∀ e, (c.get now key).2 = some e →
        ∃ t, e.ts = TsField.parsed t ∧ now ≤ t + TMDbCache.TTL_DAYS) ∧
    (c.disabled = false →
      ∀ e, dictLookup c.cache key = some e →
        TMDbCache.is_expired now e = true →
        (c.get now key).2 = none ∧
        dictLookup (c.get now key).1.cache key = none ∧
        (c.get now key).1.dirty = true) ∧
    (∀ t p, TMDbCache.is_expired now (Entry.mk (TsField.parsed t) p) =
        true ↔ t + TMDbCache.TTL_DAYS < now) := by
  refine ⟨?_, ?_, ?_⟩
  · intro e he
    by_cases hd : c.disabled
    · simp [TMDbCache.get, hd] at he
    · cases hlk : dictLookup c.cache key with
      | none => simp [TMDbCache.get, hd, hlk] at he
      | some entry =>
        by_cases hexp : TMDbCache.is_expired now entry
        · simp [TMDbCache.get, hd, hlk, hexp] at he
        · simp [TMDbCache.get, hd, hlk, hexp] at he
          subst he
          cases hts : entry.ts with
          | missing => simp [TMDbCache.is_expired, hts] at hexp
          | unparsable => simp [TMDbCache.is_expired, hts] at hexp
          | parsed t =>
            refine ⟨t, rfl, ?_⟩
            simp [TMDbCache.is_expired, hts, TMDbCache.TTL_DAYS] at hexp ⊢
            omega
  · intro hd e hlk hexp
    simp [TMDbCache.get, hd, hlk, hexp, dictLookup_dictErase_self]
  · intro t p
    simp [TMDbCache.is_expired, TMDbCache.TTL_DAYS]

/-- C1 witness: a live cache holding an entry with no timestamp returns
absent for it, evicts it and marks the mapping dirty. -/
theorem C1_witness :
    (cStale.get 100 kSample).2 = none ∧
    dictLookup (cStale.get 100 kSample).1.cache kSample = none ∧
    (cStale.get 100 kSample).1.dirty = true :=
  (C1_get_never_returns_expired cStale 100 kSample).2.1 rfl eStale
    (by decide) (by decide)

/-- C5: `_make_key` is a total deterministic function; the key is the
lowercased media type (`"unknown"` when absent/empty), the lowercased and
trimmed title (empty when absent), and the stringified year (`"0"` when
absent) joined with `"|"`; titles agreeing up to casing and surrounding
whitespace give the same key; the two concrete instances of the claim. -/
theorem C5_make_key_normalization :
    (∀ mt t y, TMDbCache.make_key mt t y =
      (match mt with
        | some s => if s ≠ "" then pyLower s else "unknown"
        | none => "unknown") ++ "|" ++
      (match t with
        | some s => if s ≠ "" then pyStrip (pyLower s) else ""
        | none => "") ++ "|" ++
      (match y with
        | some n => if n ≠ 0 then toString n else "0"
        | none => "0")) ∧
    (∀ mt y a b, pyStrip (pyLower a) = pyStrip (pyLower b) →
      TMDbCache.make_key mt (some a) y = TMDbCache.make_key mt (some b) y) ∧
    (∀ mt y, TMDbCache.make_key mt (some "  The Matrix ") y =
      TMDbCache.make_key mt (some "the matrix") y) ∧
    TMDbCache.make_key (some "Movie") none none = "movie||0" := by
  have hnorm : ∀ s, (if s ≠ "" then pyStrip (pyLower s) else "") =
      pyStrip (pyLower s) := by
    intro s
    by_cases h : s = ""
    · subst h
      decide
    · simp [h]
  have hinv : ∀ mt y a b, pyStrip (pyLower a) = pyStrip (pyLower b) →
      TMDbCache.make_key mt (some a) y = TMDbCache.make_key mt (some b) y := by
    intro mt y a b hab
    simp only [TMDbCache.make_key]
    rw [hnorm a, hnorm b, hab]
  refine ⟨?_, hinv, ?_, by decide⟩
  · intro mt t y
    rfl
  · intro mt y
    exact hinv mt y _ _ (by decide)

/-- C5 witness: the general parts of the normalization theorem evaluated
at a concrete media type, titles and year. -/
theorem C5_witness :
    TMDbCache.make_key (some "Movie") (some "  The Matrix ") (some 1999) =
      "movie|the matrix|1999" ∧
    TMDbCache.make_key (some "Movie") (some "  The Matrix ") (some 1999) =
      TMDbCache.make_key (some "Movie") (some "the matrix") (some 1999) :=
  ⟨by decide,
   C5_make_key_normalization.2.1 (some "Movie") (some 1999)
     "  The Matrix " "the matrix" (by decide)⟩

/-- C8: on a live cache, `set` stamps the entry's timestamp with the
current time (overwriting any caller-supplied value), stores it under the
key replacing any previous entry, marks the mapping dirty, and an
immediately following `get` returns that stamped entry. -/
theorem C8_set_stamps_and_stores (c : TMDbCache) (now : Int) (key : String)
    (e : Entry) (hd : c.disabled = false) :
    dictLookup (c.set now key e).cache key =
      some { e with ts := TsField.parsed now } ∧
    (c.set now key e).dirty = true ∧
    ((c.set now key e).get now key).2 =
      some { e with ts := TsField.parsed now } := by
  have hlk : dictLookup (c.set now key e).cache key =
      some { e with ts := TsField.parsed now } := by
    simp [TMDbCache.set, hd, dictLookup_dictInsert_self]
  refine ⟨hlk, by simp [TMDbCache.set, hd], ?_⟩
  simp [TMDbCache.get, TMDbCache.set, hd, dictLookup_dictInsert_self,
    TMDbCache.is_expired, TMDbCache.TTL_DAYS]

/-- C8 witness: stamping, storing and read-back at a concrete cache, key
and entry whose caller-supplied timestamp differs from the clock. -/
theorem C8_witness :
    dictLookup (cEmpty.set 100 kSample eSample).cache kSample =
      some { eSample with ts := TsField.parsed 100 } ∧
    (cEmpty.set 100 kSample eSample).dirty = true ∧
    ((cEmpty.set 100 kSample eSample).get 100 kSample).2 =
      some { eSample with ts := TsField.parsed 100 } :=
  C8_set_stamps_and_stores cEmpty 100 kSample eSample rfl

/-- C2 counterexample: `clear` never consults `self.disabled`, so a
disabled instance still deletes the backing file — refuting "no file is
created, written, or deleted by any operation including clear()". -/
theorem C2_counterexample :
    cDisabled.disabled = true ∧ fsWithFile.file ≠ none ∧
    (cDisabled.clear envOk fsWithFile).2.file = none := by decide

/-- C2 amended: on a disabled instance, construction performs no load,
`get` returns absent leaving the object unchanged, `set` discards the
write (so put-then-get returns absent), and `close` neither writes nor
raises; `clear`, however, may still delete the backing file. -/
theorem C2_disabled_amended (c : TMDbCache) (fs : FS) (env : IOEnv)
    (now : Int) (key : String) (e : Entry) (hd : c.disabled = true) :
    TMDbCache.construct true fs = .ok ⟨true, [], false⟩ ∧
    c.get now key = (c, none) ∧
    c.set now key e = c ∧
    ((c.set now key e).get now key).2 = none ∧
    (c.close env fs).2.1 = fs ∧
    (c.close env fs).2.2 = none ∧
    ((c.clear env fs).2 = fs ∨
      (c.clear env fs).2 = { fs with file := none }) := by
  refine ⟨by simp [TMDbCache.construct], by simp [TMDbCache.get, hd],
    by simp [TMDbCache.set, hd], by simp [TMDbCache.set, TMDbCache.get, hd],
    ?_, ?_, ?_⟩
  · cases hdy : c.dirty <;>
      simp [TMDbCache.close, TMDbCache.save, hd, hdy]
  · cases hdy : c.dirty <;>
      simp [TMDbCache.close, TMDbCache.save, hd, hdy]
  · cases hf : fs.file with
    | none => left; simp [TMDbCache.clear, hf]
    | some fc =>
      cases hr : env.removeFails
      · right; simp [TMDbCache.clear, hf, hr]
      · left; simp [TMDbCache.clear, hf, hr]

/-- C2 witness: the amended no-op behaviour at a concrete disabled
instance, key, entry and filesystem. -/
theorem C2_witness :
    cDisabled.set 5 kSample eSample = cDisabled ∧
    ((cDisabled.set 5 kSample eSample).get 5 kSample).2 = none ∧
    (cDisabled.close envOk fsEmpty).2.1 = fsEmpty :=
  have h := C2_disabled_amended cDisabled fsEmpty envOk 5 kSample eSample rfl
  ⟨h.2.2.1, h.2.2.2.1, h.2.2.2.2.1⟩

/-- C3 counterexample: a cache file holding valid JSON that is not an
object makes `data.get('entries', {})` raise `AttributeError`, which
`_load` does not catch — refuting "never an exception propagated". -/
theorem C3_counterexample :
    TMDbCache.construct false fsNonObject =
      .error PyError.attributeError := rfl

/-- C3 amended: a missing, unreadable or invalid-JSON file yields an empty
mapping without raising, and a well-formed store loads its entries; but a
file whose JSON document is not an object raises `AttributeError`. -/
theorem C3_load_amended (fs : FS) :
    (fs.file = none →
      TMDbCache.construct false fs = .ok ⟨false, [], false⟩) ∧
    (fs.file = some FileContent.unreadable →
      TMDbCache.construct false fs = .ok ⟨false, [], false⟩) ∧
    (fs.file = some FileContent.invalidJson →
      TMDbCache.construct false fs = .ok ⟨false, [], false⟩) ∧
    (fs.file = some FileContent.objNoEntries →
      TMDbCache.construct false fs = .ok ⟨false, [], false⟩) ∧
    (∀ es, fs.file = some (FileContent.objEntries es) →
      TMDbCache.construct false fs = .ok ⟨false, es, false⟩) ∧
    (fs.file = some FileContent.nonObject →
      TMDbCache.construct false fs = .error PyError.attributeError) := by
  refine ⟨?_, ?_, ?_, ?_, ?_, ?_⟩ <;>
    first
      | (intro h; simp [TMDbCache.construct, TMDbCache.load, h])
      | (intro es h; simp [TMDbCache.construct, TMDbCache.load, h])

/-- C3 witness: the amended load behaviour at a missing file and at an
invalid-JSON file. -/
theorem C3_witness :
    TMDbCache.construct false fsEmpty = .ok ⟨false, [], false⟩ ∧
    TMDbCache.construct false ⟨true, some FileContent.invalidJson, 0⟩ =
      .ok ⟨false, [], false⟩ :=
  ⟨(C3_load_amended fsEmpty).1 rfl,
   (C3_load_amended ⟨true, some FileContent.invalidJson, 0⟩).2.2.1 rfl⟩

/-- C4 counterexample: with the cache directory missing and `os.makedirs`
failing, `close` on a dirty cache raises `OSError` to the caller and the
dirty flag stays set — refuting "never raised ... and the dirty flag is
still left false". -/
theorem C4_counterexample :
    (cDirty.close envMkdirFail fsNoDir).2.2 = some PyError.osError ∧
    (cDirty.close envMkdirFail fsNoDir).1.dirty = true := by decide

/-- C4 amended: on a dirty live cache, `close` persists the full mapping
and clears the dirty flag; a failure of the JSON write itself is swallowed
with the flag still cleared and the write dropped; but a failure to create
the missing cache directory propagates to the caller with the flag left
set (the directory-creation call sits outside the try/except). -/
theorem C4_close_amended (c : TMDbCache) (env : IOEnv) (fs : FS)
    (hd : c.disabled = false) (hdirty : c.dirty = true) :
    (fs.dirExists = false → env.mkdirFails = true →
      c.close env fs = (c, fs, some PyError.osError)) ∧
    (fs.dirExists = true ∨ env.mkdirFails = false →
      (c.close env fs).1.dirty = false ∧
      (c.close env fs).2.2 = none ∧
      (env.writeFails = false →
        (c.close env fs).2.1.file =
          some (FileContent.objEntries c.cache) ∧
        (c.close env fs).2.1.dirExists = true) ∧
      (env.writeFails = true → (c.close env fs).2.1.file = fs.file)) := by
  constructor
  · intro h1 h2
    simp [TMDbCache.close, TMDbCache.save, hd, hdirty, h1, h2]
  · intro h
    have hcond : (!fs.dirExists && env.mkdirFails) = false := by
      rcases h with h | h <;> simp [h]
    cases hw : env.writeFails <;>
      simp [TMDbCache.close, TMDbCache.save, hd, hdirty, hcond, hw]

/-- C4 witness: a successful flush at a concrete dirty cache with a
missing directory and a working filesystem. -/
theorem C4_witness :
    (cDirty.close envOk fsNoDir).1.dirty = false ∧
    (cDirty.close envOk fsNoDir).2.2 = none ∧
    (cDirty.close envOk fsNoDir).2.1.file =
      some (FileContent.objEntries cDirty.cache) ∧
    (cDirty.close envOk fsNoDir).2.1.dirExists = true :=
  have h := (C4_close_amended cDirty envOk fsNoDir rfl rfl).2 (Or.inr rfl)
  ⟨h.1, h.2.1, (h.2.2.1 rfl).1, (h.2.2.1 rfl).2⟩

/-- C6: storing via `set_by_search` on a live cache, closing, and loading
a fresh live cache over the resulting disk state makes `get_by_search`
with the same query return the stored entry up to the injected timestamp,
provided the filesystem operations succeed and the entry has not expired
in between. -/
theorem C6_roundtrip_through_disk (c : TMDbCache) (fs : FS) (env : IOEnv)
    (mt title : Option String) (yr : Option Int) (e : Entry) (n1 n2 : Int)
    (hd : c.disabled = false) (hm : env.mkdirFails = false)
    (hw : env.writeFails = false) (hexp : n2 ≤ n1 + TMDbCache.TTL_DAYS) :
    ((c.set_by_search n1 mt title yr e).close env fs).2.2 = none ∧
    ∀ c2, TMDbCache.construct false
        ((c.set_by_search n1 mt title yr e).close env fs).2.1 = .ok c2 →
      ∃ e2, (c2.get_by_search n2 mt title yr).2 = some e2 ∧
        e2.payload = e.payload := by
  have hcond : (!fs.dirExists && env.mkdirFails) = false := by simp [hm]
  constructor
  · simp [TMDbCache.set_by_search, TMDbCache.set, TMDbCache.close,
      TMDbCache.save, hd, hcond, hw]
  · intro c2 hc2
    simp [TMDbCache.set_by_search, TMDbCache.set, TMDbCache.close,
      TMDbCache.save, TMDbCache.construct, TMDbCache.load, hd, hcond,
      hw] at hc2
    refine ⟨{ e with ts := TsField.parsed n1 }, ?_, rfl⟩
    rw [← hc2]
    have hnotexp : TMDbCache.is_expired n2
        { e with ts := TsField.parsed n1 } = false := by
      simp only [TMDbCache.TTL_DAYS] at hexp
      simp [TMDbCache.is_expired, TMDbCache.TTL_DAYS]
      omega
    simp [TMDbCache.get_by_search, TMDbCache.get,
      dictLookup_dictInsert_self, hnotexp]

/-- C6 witness: a concrete round-trip — store at day 40 with a
caller-supplied entry, close onto an empty filesystem, reload, and read
back at day 60. -/
theorem C6_witness :
    ((cEmpty.set_by_search 40 (some "Movie") (some "  The Matrix ")
        (some 1999) eStale).close envOk fsEmpty).2.2 = none ∧
    ∀ c2, TMDbCache.construct false
        ((cEmpty.set_by_search 40 (some "Movie") (some "  The Matrix ")
          (some 1999) eStale).close envOk fsEmpty).2.1 = .ok c2 →
      ∃ e2, (c2.get_by_search 60 (some "Movie") (some "  The Matrix ")
          (some 1999)).2 = some e2 ∧ e2.payload = eStale.payload :=
  C6_roundtrip_through_disk cEmpty fsEmpty envOk (some "Movie")
    (some "  The Matrix ") (some 1999) eStale 40 60 rfl rfl rfl (by decide)

/-- C7: `clear` empties the in-memory mapping, marks it dirty, makes a
following `get` return absent for every key, deletes the backing file when
the deletion succeeds, and swallows a deletion failure with the mapping
still cleared. -/
theorem C7_clear_empties_and_deletes (c : TMDbCache) (env : IOEnv)
    (fs : FS) (now : Int) (key : String) :
    (c.clear env fs).1.cache = [] ∧
    (c.clear env fs).1.dirty = true ∧
    ((c.clear env fs).1.get now key).2 = none ∧
    (env.removeFails = false → fs.file ≠ none →
      (c.clear env fs).2.file = none) ∧
    (env.removeFails = true → (c.clear env fs).2 = fs) := by
  cases hf : fs.file with
  | none =>
    cases hdis : c.disabled <;>
      simp [TMDbCache.clear, TMDbCache.get, dictLookup, hf, hdis]
  | some fc =>
    cases hr : env.removeFails <;> cases hdis : c.disabled <;>
      simp [TMDbCache.clear, TMDbCache.get, dictLookup, hf, hr, hdis]

/-- C7 witness: clearing a concrete dirty cache over a present backing
file empties the mapping, makes the stored key absent and deletes the
file. -/
theorem C7_witness :
    (cDirty.clear envOk fsWithFile).1.cache = [] ∧
    (cDirty.clear envOk fsWithFile).1.dirty = true ∧
    ((cDirty.clear envOk fsWithFile).1.get 100 kSample).2 = none ∧
    (cDirty.clear envOk fsWithFile).2.file = none :=
  have h := C7_clear_empties_and_deletes cDirty envOk fsWithFile 100 kSample
  ⟨h.1, h.2.1, h.2.2.1, h.2.2.2.1 rfl (by decide)⟩

/-- C9: two consecutive `close` calls with no mutation in between perform
at most one disk write, and when the first call returns normally the
second is a complete no-op. -/
theorem C9_close_twice_one_write (c : TMDbCache) (env : IOEnv) (fs : FS) :
    ((c.close env fs).1.close env (c.close env fs).2.1).2.1.writes ≤
      fs.writes + 1 ∧
    ((c.close env fs).2.2 = none →
      (c.close env fs).1.close env (c.close env fs).2.1 =
        ((c.close env fs).1, (c.close env fs).2.1, none)) := by
  cases hdy : c.dirty <;> cases hdis : c.disabled <;>
    cases hm : env.mkdirFails <;> cases hde : fs.dirExists <;>
    cases hw : env.writeFails <;>
    simp [TMDbCache.close, TMDbCache.save, hdy, hdis, hm, hde, hw]

/-- C9 witness: on a concrete dirty cache and working filesystem, the
first `close` succeeds and the second leaves cache, filesystem and error
all unchanged. -/
theorem C9_witness :
    ((cDirty.close envOk fsEmpty).1.close envOk
        (cDirty.close envOk fsEmpty).2.1).2.1.writes ≤
      fsEmpty.writes + 1 ∧
    (cDirty.close envOk fsEmpty).1.close envOk
        (cDirty.close envOk fsEmpty).2.1 =
      ((cDirty.close envOk fsEmpty).1, (cDirty.close envOk fsEmpty).2.1,
        none) :=
  have h := C9_close_twice_one_write cDirty envOk fsEmpty
  ⟨h.1, h.2 (by decide)⟩

/-- Any sequence of calls keeps a disabled cache's mapping empty. -/
theorem run_preserves_disabled_empty (env : IOEnv) (ops : List Op)
    (s : TMDbCache × FS) (hd : s.1.disabled = true) (hc : s.1.cache = []) :
    (run env s ops).1.disabled = true ∧ (run env s ops).1.cache = [] := by
  induction ops generalizing s with
  | nil => simp [run, hd, hc]
  | cons op rest ih =>
    have hstep : (step env s op).1.disabled = true ∧
        (step env s op).1.cache = [] := by
      cases op with
      | opGet now key => simp [step, TMDbCache.get, hd, hc]
      | opGetBySearch now mt t y =>
        simp [step, TMDbCache.get_by_search, TMDbCache.get, hd, hc]
      | opSet now key e => simp [step, TMDbCache.set, hd, hc]
      | opSetBySearch now mt t y e =>
        simp [step, TMDbCache.set_by_search, TMDbCache.set, hd, hc]
      | opClear =>
        cases hf : s.2.file with
        | none => simp [step, TMDbCache.clear, hf, hd]
        | some fc =>
          cases hr : env.removeFails <;>
            simp [step, TMDbCache.clear, hf, hr, hd]
      | opClose =>
        cases hdy : s.1.dirty <;>
          simp [step, TMDbCache.close, TMDbCache.save, hd, hc, hdy]
    have hrest := ih (step env s op) hstep.1 hstep.2
    simpa [run] using hrest

/-- C10: constructing with `disabled=True` performs no load whatever the
disk holds and yields an empty mapping, and the mapping stays empty after
every sequence of `get`, `get_by_search`, `set`, `set_by_search`, `clear`
and `close` calls. -/
theorem C10_disabled_mapping_stays_empty (fs fs0 : FS) (env : IOEnv)
    (c : TMDbCache) (ops : List Op)
    (h : TMDbCache.construct true fs0 = .ok c) :
    (∀ fs1, TMDbCache.construct true fs1 = .ok ⟨true, [], false⟩) ∧
    c.cache = [] ∧ c.disabled = true ∧
    (run env (c, fs) ops).1.cache = [] := by
  obtain ⟨cd, cc, cdy⟩ := c
  simp [TMDbCache.construct] at h
  obtain ⟨h1, h2, h3⟩ := h
  subst h1
  subst h2
  subst h3
  exact ⟨fun _ => rfl, rfl, rfl,
    (run_preserves_disabled_empty env ops (⟨true, [], false⟩, fs) rfl
      rfl).2⟩

/-- C10 witness: a disabled instance built over a hostile disk state stays
empty through a concrete put / clear / close sequence. -/
theorem C10_witness :
    (∀ fs1, TMDbCache.construct true fs1 = .ok ⟨true, [], false⟩) ∧
    cDisabled.cache = [] ∧ cDisabled.disabled = true ∧
    (run envOk (cDisabled, fsEmpty)
      [Op.opSet 5 kSample eSample, Op.opClear, Op.opClose]).1.cache =
        [] :=
  C10_disabled_mapping_stays_empty fsEmpty fsNonObject envOk cDisabled
    [Op.opSet 5 kSample eSample, Op.opClear, Op.opClose] rfl
